import Mathlib

/-!
Verification of the insurance-crm normalization pipeline (`config.py`,
`processor.py`, `database.py`) against its specification.

Cells of a spreadsheet / pandas DataFrame are modelled by `Value`
(pandas NaN/NaT/None collapse to `vnull`); a DataFrame is a list of named
columns in order.  Library calls (`pd.to_datetime`, `pd.to_numeric`,
`pd.read_excel`, `df.to_sql`) are modelled by executable Lean functions
faithful to their use in the source.
-/

/-- A spreadsheet / DataFrame cell. `vnull` covers None, NaN and NaT. -/
inductive Value where
  | vnull
  | vbool (b : Bool)
  | vnum (q : Rat)
  | vstr (s : String)
deriving DecidableEq, Repr

/-- A DataFrame: named columns in order, each a list of cells. -/
abbrev DataFrame : Type := List (String × List Value)

/-- config.py MOLINA_MAPPING: raw header → canonical field. -/
def MOLINA_MAPPING : List (String × String) :=
  [("Generated From", "generated_from"),
   ("Payment Date", "payment_date"),
   ("PayeeName", "payee_name"),
   ("NPN", "payee_npn"),
   ("Statement Date", "statement_date"),
   ("Product", "product"),
   ("Policy", "policy_number"),
   ("Insured", "insured_name"),
   ("Effective Date", "effective_date"),
   ("WritingAgent", "writing_agent"),
   ("Writing Agent Number", "writing_agent_number"),
   ("Transaction Type", "transaction_type"),
   ("NewToMedicare", "new_to_medicare"),
   ("Carrier Transaction Type", "carrier_transaction_type"),
   ("Member Count", "member_count"),
   ("Amount", "amount"),
   ("Agente", "assigned_agent_name"),
   ("Mes Pagado", "commission_month")]

/-- config.py AMBETTER_MAPPING. -/
def AMBETTER_MAPPING : List (String × String) :=
  [("Generated From", "generated_from"),
   ("Payment Date", "payment_date"),
   ("PayeeName", "payee_name"),
   ("NPN", "payee_npn"),
   ("Statement Date", "statement_date"),
   ("Product", "product"),
   ("Policy", "policy_number"),
   ("Insured", "insured_name"),
   ("Effective Date", "effective_date"),
   ("PayoutType", "payout_type"),
   ("Writing Agent", "writing_agent"),
   ("Writing Agent Number", "writing_agent_number"),
   ("TransactionType", "transaction_type"),
   ("NewToMedicare", "new_to_medicare"),
   ("Carrier Transaction Type", "carrier_transaction_type"),
   ("Member Count", "member_count"),
   ("Amount", "amount"),
   ("Unnamed: 18", "assigned_agent_name")]

/-- config.py AETNA_MAPPING. -/
def AETNA_MAPPING : List (String × String) :=
  [("Generated From", "generated_from"),
   ("Payment Date", "payment_date"),
   ("PayeeName", "payee_name"),
   ("Statement Date", "statement_date"),
   ("Product", "product"),
   ("Policy", "policy_number"),
   ("Insured", "insured_name"),
   ("Effective Date", "effective_date"),
   ("Payout Type", "payout_type"),
   ("WritingAgent", "writing_agent"),
   ("WritingAgentNumber", "writing_agent_number"),
   ("Transaction Type", "transaction_type"),
   ("NewToMedicare", "new_to_medicare"),
   ("CarrierTransactionType", "carrier_transaction_type"),
   ("Member Count", "member_count"),
   ("Amount", "amount")]

/-- config.py OSCAR_MAPPING. -/
def OSCAR_MAPPING : List (String × String) :=
  [("Commission type", "commission_type"),
   ("Payee name", "payee_name"),
   ("Payee type", "payee_type"),
   ("Payee NPN", "payee_npn"),
   ("Member ID", "member_id"),
   ("Subscriber name", "insured_name"),
   ("State", "state"),
   ("Lives", "lives"),
   ("Effective Date", "effective_date"),
   ("Commission", "amount"),
   ("Commission month", "commission_month"),
   ("Block Reason", "block_reason"),
   ("Unnamed: 12", "assigned_agent_name")]

/-- config.py CARRIER_MAPPINGS, in Python dict insertion order. -/
def CARRIER_MAPPINGS : List (String × List (String × String)) :=
  [("MOLINA", MOLINA_MAPPING),
   ("AMBETTER", AMBETTER_MAPPING),
   ("AETNA", AETNA_MAPPING),
   ("OSCAR", OSCAR_MAPPING)]

/-- config.py AVAILABLE_CARRIERS = list(CARRIER_MAPPINGS.keys()). -/
def AVAILABLE_CARRIERS : List String := CARRIER_MAPPINGS.map Prod.fst

/-- len(columns.intersection(set(mapping.keys()))): the mapping keys are
pairwise distinct, so counting mapping entries whose key occurs among the
headers is the size of the set intersection. -/
def matchCount (mapping : List (String × String)) (columns : List String) : Nat :=
  mapping.countP (fun p => columns.contains p.1)

/-- The `for carrier, mapping in self.carrier_mappings.items()` loop of
detect_carrier, threading (best_match, max_matches). -/
def detectLoop (columns : List String) :
    List (String × List (String × String)) → Option String × Nat → Option String × Nat
  | [], st => st
  | (carrier, mapping) :: rest, (best, maxM) =>
      let nMatches := matchCount mapping columns
      if maxM < nMatches then
        detectLoop columns rest (some carrier, nMatches)
      else
        detectLoop columns rest (best, maxM)

/-- FileProcessor.detect_carrier on the header list of the table read from the
file.  `best_match and max_matches >= len(mapping)*0.5` : `None` is falsy and
carrier names are nonempty strings, and `m >= l*0.5` over exact floats is
`2*m >= l`. -/
def detect_carrier (df : DataFrame) : Option String :=
  let columns := df.map Prod.fst
  match detectLoop columns CARRIER_MAPPINGS (none, 0) with
  | (none, _) => none
  | (some best, maxM) =>
      match List.lookup best CARRIER_MAPPINGS with
      | none => none
      | some mapping => if mapping.length ≤ 2 * maxM then some best else none

/-- The spec-side description of carrier detection (section 4.2), written from
the spec words: the first mapping (encounter order) whose intersection with the
headers attains the maximum, accepted only when that intersection is at least
50% of that mapping's size. -/
def detectSpecied (df : DataFrame) : Option String :=
  let columns := df.map Prod.fst
  let maxM := (CARRIER_MAPPINGS.map (fun p => matchCount p.2 columns)).foldr Nat.max 0
  match CARRIER_MAPPINGS.find? (fun p => matchCount p.2 columns == maxM) with
  | none => none
  | some (carrier, mapping) =>
      if mapping.length ≤ 2 * matchCount mapping columns then some carrier else none

/-- Maximum intersection size over a list of carrier mappings. -/
def maxCountList (columns : List String)
    (L : List (String × List (String × String))) : Nat :=
  L.foldr (fun p acc => Nat.max (matchCount p.2 columns) acc) 0

/-- Column lookup by name (`original_col in df.columns` / `df[original_col]`). -/
def getCol (df : DataFrame) (name : String) : Option (List Value) :=
  List.lookup name df

/-- Number of rows, `len(df)`. Columns of a DataFrame have equal length. -/
def rowCount (df : DataFrame) : Nat :=
  match df with
  | [] => 0
  | c :: _ => c.2.length

/-- Python str.strip(): remove leading and trailing whitespace. -/
def pyStrip (s : String) : String :=
  String.mk
    (((s.toList.dropWhile Char.isWhitespace).reverse.dropWhile
        Char.isWhitespace).reverse)

/-- Split a character list on a separator character (str.split(sep) semantics:
the empty input yields one empty field). -/
def splitOnSep (sep : Char) (cs : List Char) : List (List Char) :=
  cs.foldr
    (fun c acc =>
      match acc with
      | [] => [[c]]
      | g :: gs => if c = sep then [] :: (g :: gs) else (c :: g) :: gs)
    ([] :: [])

/-- One cell through FileProcessor._clean_data: strings are stripped
(`x.strip() if isinstance(x, str) else x`), then
`replace(\x7bnp.nan: None, \x27\x27: None, \x27nan\x27: None\x7d)` turns NaN,
empty and literal "nan" cells into None.  Non-string cells pass unchanged. -/
def cleanCell : Value → Value
  | .vstr s =>
      let t := pyStrip s
      if t = "" ∨ t = "nan" then .vnull else .vstr t
  | v => v

/-- FileProcessor._clean_data applied to every column. -/
def clean_data (df : DataFrame) : DataFrame :=
  df.map (fun p => (p.1, p.2.map cleanCell))

/-- processor.py date_columns. -/
def date_columns : List String :=
  ["payment_date", "statement_date", "effective_date"]

/-- processor.py numeric_columns. -/
def numeric_columns : List String :=
  ["amount", "member_count", "lives", "override_percentage"]

/-- processor.py boolean_columns. -/
def boolean_columns : List String :=
  ["new_to_medicare"]

/-- A calendar date as carried by a pandas Timestamp. -/
structure PyDate where
  y : Nat
  m : Nat
  d : Nat
deriving DecidableEq, Repr

/-- Digit characters to a number (most significant first). -/
def digitsVal (cs : List Char) : Nat :=
  cs.foldl (fun a c => a * 10 + (c.toNat - 48)) 0

/-- Left-pad a number with zeros to a given width (strftime field padding). -/
def padNat (width n : Nat) : String :=
  let s := toString n
  String.mk (List.replicate (width - s.length) '0') ++ s

/-- Timestamp.strftime(\x27%Y-%m-%d\x27). -/
def formatISO (dt : PyDate) : String :=
  padNat 4 dt.y ++ "-" ++ padNat 2 dt.m ++ "-" ++ padNat 2 dt.d

/-- Model of the `pd.to_datetime(..., errors=\x27coerce\x27)` string parser on
its ISO core: YYYY-MM-DD with in-range month and day.  The pandas parser
accepts further formats; every claim below depends only on parse failure
becoming null, not on the accepted language. -/
def parseISODate (s : String) : Option PyDate :=
  match splitOnSep '-' (pyStrip s).toList with
  | [ys, ms, ds] =>
      if ys.length = 4 && ys.all (·.isDigit)
          && decide (0 < ms.length) && ms.length ≤ 2 && ms.all (·.isDigit)
          && decide (0 < ds.length) && ds.length ≤ 2 && ds.all (·.isDigit)
      then
        let m := digitsVal ms
        let d := digitsVal ds
        if 1 ≤ m ∧ m ≤ 12 ∧ 1 ≤ d ∧ d ≤ 31 then
          some ⟨digitsVal ys, m, d⟩
        else none
      else none
  | _ => none

/-- `pd.to_datetime(errors=\x27coerce\x27)` on one cell: non-string cells and
unparseable strings coerce to NaT. -/
def parseDateValue : Value → Option PyDate
  | .vstr s => parseISODate s
  | _ => none

/-- One cell of a date column through _convert_datatypes: to_datetime with
coerce, then strftime to ISO, with NaT becoming null. -/
def convertDateCell (v : Value) : Value :=
  match parseDateValue v with
  | some dt => .vstr (formatISO dt)
  | none => .vnull

/-- The float literal parser backing `pd.to_numeric` on strings: optional
sign, digits, optional fractional part. -/
def parseDecimal (s : String) : Option Rat :=
  let cs := (pyStrip s).toList
  let neg : Bool := match cs with
    | '-' :: _ => true
    | _ => false
  let body : List Char := match cs with
    | '-' :: rest => rest
    | '+' :: rest => rest
    | _ => cs
  let ip := body.takeWhile (·.isDigit)
  let rest := body.dropWhile (·.isDigit)
  let signed : Rat → Rat := fun q => if neg then -q else q
  match rest with
  | [] => if ip.isEmpty then none else some (signed (digitsVal ip : Rat))
  | '.' :: fp =>
      if fp.all (·.isDigit) && !(ip.isEmpty && fp.isEmpty) then
        some (signed ((digitsVal ip : Rat)
          + (digitsVal fp : Rat) / ((10 : Rat) ^ fp.length)))
      else none
  | _ => none

/-- One cell of a numeric column through
`pd.to_numeric(..., errors=\x27coerce\x27)`: numbers pass, booleans become 1/0,
parseable strings parse, everything else coerces to NaN. -/
def convertNumericCell : Value → Value
  | .vnum q => .vnum q
  | .vbool b => .vnum (if b then 1 else 0)
  | .vstr s =>
      match parseDecimal s with
      | some q => .vnum q
      | none => .vnull
  | .vnull => .vnull

/-- One cell of new_to_medicare through the `.map(\x7bTrue: 1, False: 0,
\x27True\x27: 1, \x27False\x27: 0, \x27true\x27: 1, \x27false\x27: 0,
\x27Yes\x27: 1, \x27No\x27: 0, \x27yes\x27: 1, \x27no\x27: 0, 1: 1, 0: 0\x7d)`
dictionary: in Python `True == 1` and `False == 0` collapse with the numeric
keys, so numeric 1/0 (int or float) hit the boolean keys; any value not a key
maps to NaN. -/
def convertBoolCell : Value → Value
  | .vbool b => .vnum (if b then 1 else 0)
  | .vnum q => if q = 1 then .vnum 1 else if q = 0 then .vnum 0 else .vnull
  | .vstr s =>
      if s = "True" ∨ s = "true" ∨ s = "Yes" ∨ s = "yes" then .vnum 1
      else if s = "False" ∨ s = "false" ∨ s = "No" ∨ s = "no" then .vnum 0
      else .vnull
  | .vnull => .vnull

/-- One column through FileProcessor._convert_datatypes: the three sequential
`if col in ...` rewrites (a column name occurs in at most one of the lists). -/
def convertColumn (name : String) (col : List Value) : List Value :=
  let col1 := if date_columns.contains name then col.map convertDateCell else col
  let col2 :=
    if numeric_columns.contains name then col1.map convertNumericCell else col1
  if boolean_columns.contains name then col2.map convertBoolCell else col2

/-- FileProcessor._convert_datatypes. -/
def convert_datatypes (df : DataFrame) : DataFrame :=
  df.map (fun p => (p.1, convertColumn p.1 p.2))

/-- FileProcessor._normalize_data: build the normalized frame by copying
`df[original_col]` to `normalized_col` for each mapping entry whose source
column exists (the canonical names of one mapping are pairwise distinct), then
clean and convert. -/
def normalize_data (df : DataFrame) (mapping : List (String × String)) :
    DataFrame :=
  let selected : DataFrame :=
    mapping.filterMap (fun p => (getCol df p.1).map (fun col => (p.2, col)))
  convert_datatypes (clean_data selected)

/-- An uploaded file as seen by the processor: its name, extension, existence,
and the table obtained when reading it (`none` when pd.read_excel raises). -/
structure ExcelFile where
  name : String
  suffix : String
  present : Bool
  content : Option DataFrame

/-- pd.read_excel: raises (modelled `none`) when the file is missing or
unreadable. -/
def read_excel (f : ExcelFile) : Option DataFrame :=
  if f.present then f.content else none

/-- FileProcessor.validate_file: extension check, existence check, then a read
attempt; an empty table or a raised read error yields (False, message). -/
def validate_file (f : ExcelFile) : Bool × String :=
  if ¬ (f.suffix = ".xlsx" ∨ f.suffix = ".xls") then
    (false, "El archivo debe ser Excel (.xlsx o .xls)")
  else if f.present = false then
    (false, "El archivo no existe")
  else
    match read_excel f with
    | none => (false, "Error al leer el archivo: <exception>")
    | some df =>
        if rowCount df = 0 then (false, "El archivo está vacío")
        else (true, "Archivo válido")

/-- The statistics dictionary of FileProcessor._calculate_stats, restricted to
the fields the claims mention; `df[\x27amount\x27].sum()` skips nulls and is 0
on an empty column, `.mean()` of an empty column is NaN (modelled `none`). -/
structure Stats where
  carrier : String
  total_records : Nat
  total_amount : Rat
  avg_amount : Option Rat
deriving DecidableEq, Repr

/-- Pandas Series.sum over a column: add the numeric cells, skip the rest. -/
def sumAmount (col : List Value) : Rat :=
  col.foldl (fun acc v => match v with | Value.vnum q => acc + q | _ => acc) 0

/-- Number of numeric (non-null) cells of a column. -/
def numCount (col : List Value) : Nat :=
  col.countP (fun v => match v with | Value.vnum _ => true | _ => false)

/-- Pandas Series.mean: NaN on a column with no numeric cells. -/
def meanAmount (col : List Value) : Option Rat :=
  if numCount col = 0 then none else some (sumAmount col / (numCount col : Rat))

/-- FileProcessor._calculate_stats (carrier, total_records, total_amount,
avg_amount). -/
def calculate_stats (df : DataFrame) (carrier_name : String) : Stats :=
  { carrier := carrier_name
    total_records := rowCount df
    total_amount :=
      match getCol df "amount" with
      | some col => sumAmount col
      | none => 0
    avg_amount :=
      match getCol df "amount" with
      | some col => meanAmount col
      | none => some 0 }

/-- The error text of the unsupported-carrier ValueError, naming
config.AVAILABLE_CARRIERS. -/
def unsupportedCarrierMsg (carrier_name : String) : String :=
  "Carrier \x27" ++ carrier_name
    ++ "\x27 no soportado. Carriers disponibles: [\x27MOLINA\x27, \x27AMBETTER\x27, \x27AETNA\x27, \x27OSCAR\x27]"

/-- FileProcessor.process_file: reject an unsupported carrier before reading,
then read, normalize and compute statistics.  A read failure propagates as the
exception (Except.error). -/
def process_file (f : ExcelFile) (carrier_name : String) :
    Except String (DataFrame × Stats) :=
  match List.lookup carrier_name CARRIER_MAPPINGS with
  | none => Except.error (unsupportedCarrierMsg carrier_name)
  | some mapping =>
      match read_excel f with
      | none => Except.error "Error al leer el archivo: <exception>"
      | some df =>
          let df_normalized := normalize_data df mapping
          Except.ok (df_normalized, calculate_stats df_normalized carrier_name)

/-- One persisted row of the commission_reports table. -/
abbrev Record := List (String × Value)

/-- `df[name] = scalar`: broadcast the scalar to a full column, overwriting an
existing column of that name or appending a new one. -/
def colAssign (df : DataFrame) (name : String) (v : Value) : DataFrame :=
  let col := List.replicate (rowCount df) v
  if (df.map Prod.fst).contains name then
    df.map (fun p => if p.1 = name then (p.1, col) else p)
  else df ++ [(name, col)]

/-- The rows of a DataFrame, as written by df.to_sql. -/
def dfToRecords (df : DataFrame) : List Record :=
  (List.range (rowCount df)).map
    (fun i => df.map (fun p => (p.1, p.2.getD i Value.vnull)))

/-- DatabaseManager.insert_bulk_commission_reports: add the three metadata
columns to the caller's DataFrame in place (modelled by returning the mutated
frame), then df.to_sql(..., if_exists=\x27append\x27) appends every row inside
one transaction — `write_ok` is the outcome of that write, a failure leaves
the store unchanged and raises (modelled `none`); on success the row count of
the mutated frame is returned. `upload_date` stands for
datetime.now().isoformat(). -/
def insert_bulk_commission_reports (dbRecords : List Record) (df : DataFrame)
    (carrier_name file_name upload_date : String) (write_ok : Bool) :
    Option (List Record × Nat) × DataFrame :=
  let df2 := colAssign (colAssign (colAssign df
    "carrier_name" (Value.vstr carrier_name))
    "report_file_name" (Value.vstr file_name))
    "upload_date" (Value.vstr upload_date)
  if write_ok then (some (dbRecords ++ dfToRecords df2, rowCount df2), df2)
  else (none, df2)

/-- The result dictionary of processor.process_and_save. -/
structure SaveResult where
  success : Bool
  error : Option String
  records_inserted : Option Nat
  stats : Option Stats
  message : Option String

/-- processor.process_and_save: validate, process, insert; every raised
exception is caught and returned as a failure dictionary, leaving the store
as it was. -/
def process_and_save (dbRecords : List Record) (f : ExcelFile)
    (carrier_name upload_date : String) (write_ok : Bool) :
    SaveResult × List Record :=
  let validated := validate_file f
  if validated.1 = false then
    ({ success := false, error := some validated.2, records_inserted := none,
       stats := none, message := none }, dbRecords)
  else
    match process_file f carrier_name with
    | Except.error e =>
        ({ success := false, error := some ("Error al procesar archivo: " ++ e),
           records_inserted := none, stats := none, message := none },
          dbRecords)
    | Except.ok (df_normalized, stats) =>
        match insert_bulk_commission_reports dbRecords df_normalized
            carrier_name f.name upload_date write_ok with
        | (some (db2, n), _) =>
            ({ success := true, error := none, records_inserted := some n,
               stats := some stats,
               message := some ("✅ " ++ toString n ++ " registros de "
                 ++ carrier_name ++ " procesados exitosamente") }, db2)
        | (none, _) =>
            ({ success := false,
               error := some "Error al procesar archivo: <db error>",
               records_inserted := none, stats := none, message := none },
              dbRecords)

/-- The columns of the commission_reports table, in DATABASE_SCHEMA order:
`get_all_reports` / `get_reports_by_carrier` run SELECT * so an export carries
exactly these headers. -/
def SCHEMA_COLUMNS : List String :=
  ["id", "carrier_name", "upload_date", "payment_date", "statement_date",
   "report_file_name", "payee_name", "payee_npn", "payee_type",
   "policy_number", "member_id", "insured_name", "effective_date",
   "transaction_type", "payout_type", "commission_type", "amount",
   "member_count", "lives", "writing_agent", "writing_agent_number",
   "assigned_agent_name", "state", "product", "new_to_medicare",
   "carrier_transaction_type", "block_reason", "commission_month",
   "generated_from", "created_at", "updated_at"]

/-- DatabaseManager.export_to_excel followed by reading the spreadsheet back:
a DataFrame whose headers are the schema columns and whose cells come from the
persisted rows (absent fields are null). -/
def export_to_excel (records : List Record) : DataFrame :=
  SCHEMA_COLUMNS.map (fun cname =>
    (cname, records.map (fun r => (List.lookup cname r).getD Value.vnull)))

lemma maxCountList_eq_foldr_map (columns : List String)
    (L : List (String × List (String × String))) :
    maxCountList columns L
      = (L.map (fun p => matchCount p.2 columns)).foldr Nat.max 0 := by
  induction L with
  | nil => rfl
  | cons h t ih =>
      simp only [maxCountList, List.foldr_cons, List.map_cons] at ih ⊢
      rw [ih]

lemma matchCount_le_maxCountList (columns : List String)
    (L : List (String × List (String × String)))
    (p : String × List (String × String)) (hp : p ∈ L) :
    matchCount p.2 columns ≤ maxCountList columns L := by
  induction L with
  | nil => cases hp
  | cons h t ih =>
      rcases List.mem_cons.mp hp with rfl | hmem
      · exact Nat.le_max_left _ _
      · exact le_trans (ih hmem) (Nat.le_max_right _ _)

/-- Characterization of the detect_carrier loop: the final max is the overall
maximum, and the final best is the first mapping attaining it, provided the
overall maximum exceeds the initial one. -/
lemma detectLoop_eq (columns : List String)
    (L : List (String × List (String × String)))
    (best : Option String) (maxM : Nat) :
    detectLoop columns L (best, maxM) =
      if maxM < maxCountList columns L then
        ((L.find? (fun p => matchCount p.2 columns == maxCountList columns L)).map
            Prod.fst,
          maxCountList columns L)
      else (best, maxM) := by
  induction L generalizing best maxM with
  | nil =>
      simp [detectLoop, maxCountList]
  | cons hd t ih =>
      obtain ⟨c, m⟩ := hd
      have hmax : maxCountList columns ((c, m) :: t)
          = Nat.max (matchCount m columns) (maxCountList columns t) := rfl
      by_cases hmn : maxM < matchCount m columns
      · rw [show detectLoop columns ((c, m) :: t) (best, maxM)
            = detectLoop columns t (some c, matchCount m columns) by
              simp [detectLoop, hmn]]
        rw [ih]
        by_cases hnR : matchCount m columns < maxCountList columns t
        · have h1 : maxCountList columns ((c, m) :: t) = maxCountList columns t := by
            rw [hmax]; exact Nat.max_eq_right hnR.le
          rw [h1]
          have h2 : maxM < maxCountList columns t := lt_trans hmn hnR
          rw [if_pos hnR, if_pos h2]
          rw [List.find?_cons_of_neg]
          simp only [beq_iff_eq, decide_eq_true_eq]
          exact Nat.ne_of_lt hnR
        · have h1 : maxCountList columns ((c, m) :: t) = matchCount m columns := by
            rw [hmax]; exact Nat.max_eq_left (Nat.le_of_not_lt hnR)
          rw [h1, if_neg hnR, if_pos hmn, List.find?_cons_of_pos]
          · simp
          · simp
      · rw [show detectLoop columns ((c, m) :: t) (best, maxM)
            = detectLoop columns t (best, maxM) by
              simp [detectLoop, hmn]]
        rw [ih]
        by_cases hRm : maxM < maxCountList columns t
        · have h1 : maxCountList columns ((c, m) :: t) = maxCountList columns t := by
            rw [hmax]
            exact Nat.max_eq_right ((Nat.le_of_not_lt hmn).trans hRm.le)
          rw [h1, if_pos hRm, if_pos hRm]
          rw [List.find?_cons_of_neg]
          simp only [beq_iff_eq, decide_eq_true_eq]
          exact Nat.ne_of_lt (lt_of_le_of_lt (Nat.le_of_not_lt hmn) hRm)
        · have h1 : ¬ maxM < maxCountList columns ((c, m) :: t) := by
            rw [hmax]
            exact Nat.not_lt.mpr (Nat.max_le.mpr
              ⟨Nat.le_of_not_lt hmn, Nat.le_of_not_lt hRm⟩)
          rw [if_neg hRm, if_neg h1]

/-- When the overall maximum is positive, some mapping attains it, so the
first-attaining search succeeds. -/
lemma find_attains_max (columns : List String)
    (L : List (String × List (String × String)))
    (hM : 0 < maxCountList columns L) :
    ∃ p, L.find? (fun q => matchCount q.2 columns == maxCountList columns L)
        = some p := by
  induction L with
  | nil => simp [maxCountList] at hM
  | cons hd t ih =>
      obtain ⟨c, m⟩ := hd
      have hmax : maxCountList columns ((c, m) :: t)
          = Nat.max (matchCount m columns) (maxCountList columns t) := rfl
      by_cases heq : matchCount m columns = maxCountList columns ((c, m) :: t)
      · refine ⟨(c, m), ?_⟩
        rw [List.find?_cons_of_pos]
        simp [heq]
      · have h1 : maxCountList columns ((c, m) :: t) = maxCountList columns t := by
          rcases Nat.le_total (matchCount m columns) (maxCountList columns t) with
            hle | hle
          · rw [hmax]; exact Nat.max_eq_right hle
          · exact absurd (hmax.trans (Nat.max_eq_left hle)).symm heq
        have h2 : 0 < maxCountList columns t := h1 ▸ hM
        obtain ⟨p, hp⟩ := ih h2
        refine ⟨p, ?_⟩
        rw [List.find?_cons_of_neg]
        · rw [h1]; exact hp
        · simp only [beq_iff_eq, decide_eq_true_eq]
          exact heq

/-- In an association list with pairwise-distinct keys, looking up the key of
the pair returned by a first-match search returns that pair's value. -/
lemma lookup_of_find (L : List (String × List (String × String)))
    (hnd : (L.map Prod.fst).Nodup)
    (pred : String × List (String × String) → Bool)
    (c : String) (m : List (String × String))
    (hfind : L.find? pred = some (c, m)) :
    List.lookup c L = some m := by
  induction L with
  | nil => simp at hfind
  | cons hd t ih =>
      obtain ⟨k, v⟩ := hd
      by_cases hp : pred (k, v) = true
      · rw [List.find?_cons_of_pos _ hp] at hfind
        injection hfind with h
        injection h with h1 h2
        subst h1; subst h2
        simp [List.lookup]
      · rw [List.find?_cons_of_neg _ hp] at hfind
        have hmem : (c, m) ∈ t := List.mem_of_find?_eq_some hfind
        have hcmem : c ∈ t.map Prod.fst := List.mem_map_of_mem Prod.fst hmem
        simp only [List.map_cons, List.nodup_cons] at hnd
        have hck : (c == k) = false := by
          refine beq_eq_false_iff_ne.mpr ?_
          intro h
          subst h
          exact hnd.1 hcmem
        simp only [List.lookup, hck]
        exact ih hnd.2 hfind

lemma find_count_eq (columns : List String)
    (L : List (String × List (String × String)))
    (p : String × List (String × String))
    (hp : L.find? (fun q => matchCount q.2 columns == maxCountList columns L)
        = some p) :
    matchCount p.2 columns = maxCountList columns L := by
  have := List.find?_some hp
  simpa using this

/-- C1: detect_carrier returns the carrier whose mapping has the largest header
intersection with the input (first in encounter order on ties), provided that
intersection is at least 50% of that mapping's size, and None otherwise; in
particular it returns None when every mapping's overlap is below 50% of that
mapping's size. -/
theorem detect_carrier_correct (df : DataFrame) :
    detect_carrier df = detectSpecied df ∧
      ((∀ p ∈ CARRIER_MAPPINGS,
          2 * matchCount p.2 (df.map Prod.fst) < p.2.length) →
        detect_carrier df = none) := by
  have hdc : detect_carrier df =
      (match detectLoop (df.map Prod.fst) CARRIER_MAPPINGS (none, 0) with
       | (none, _) => none
       | (some best, maxM) =>
          match List.lookup best CARRIER_MAPPINGS with
          | none => none
          | some mapping =>
              if mapping.length ≤ 2 * maxM then some best else none) := rfl
  have hspec : detectSpecied df =
      (match CARRIER_MAPPINGS.find?
          (fun p => matchCount p.2 (df.map Prod.fst)
              == maxCountList (df.map Prod.fst) CARRIER_MAPPINGS) with
       | none => none
       | some (carrier, mapping) =>
          if mapping.length ≤ 2 * matchCount mapping (df.map Prod.fst)
          then some carrier else none) := by
    simp only [detectSpecied]
    rw [← maxCountList_eq_foldr_map]
  by_cases hM : 0 < maxCountList (df.map Prod.fst) CARRIER_MAPPINGS
  · obtain ⟨⟨c, m⟩, hp⟩ := find_attains_max (df.map Prod.fst) CARRIER_MAPPINGS hM
    have hcm : matchCount m (df.map Prod.fst)
        = maxCountList (df.map Prod.fst) CARRIER_MAPPINGS :=
      find_count_eq _ _ _ hp
    have hloop : detectLoop (df.map Prod.fst) CARRIER_MAPPINGS (none, 0)
        = (some c, maxCountList (df.map Prod.fst) CARRIER_MAPPINGS) := by
      rw [detectLoop_eq, if_pos hM, hp]
      rfl
    have hlk : List.lookup c CARRIER_MAPPINGS = some m :=
      lookup_of_find _ (by decide) _ _ _ hp
    have hmem : (c, m) ∈ CARRIER_MAPPINGS := List.mem_of_find?_eq_some hp
    constructor
    · rw [hdc, hloop, hspec, hp]
      dsimp only
      rw [hlk]
      dsimp only
      rw [hcm]
    · intro hall
      have hlt := hall (c, m) hmem
      dsimp only at hlt
      rw [hcm] at hlt
      rw [hdc, hloop]
      dsimp only
      rw [hlk]
      dsimp only
      rw [if_neg]
      omega
  · have hM0 : maxCountList (df.map Prod.fst) CARRIER_MAPPINGS = 0 := by omega
    have hloop : detectLoop (df.map Prod.fst) CARRIER_MAPPINGS (none, 0)
        = (none, 0) := by
      rw [detectLoop_eq, if_neg hM]
    have hmol : matchCount MOLINA_MAPPING (df.map Prod.fst) = 0 := by
      have hle := matchCount_le_maxCountList (df.map Prod.fst) CARRIER_MAPPINGS
        ("MOLINA", MOLINA_MAPPING) (by simp [CARRIER_MAPPINGS])
      dsimp only at hle
      omega
    have hhead : CARRIER_MAPPINGS.find?
        (fun p => matchCount p.2 (df.map Prod.fst)
            == maxCountList (df.map Prod.fst) CARRIER_MAPPINGS)
        = some ("MOLINA", MOLINA_MAPPING) := by
      have hcons : CARRIER_MAPPINGS = ("MOLINA", MOLINA_MAPPING) ::
          [("AMBETTER", AMBETTER_MAPPING), ("AETNA", AETNA_MAPPING),
           ("OSCAR", OSCAR_MAPPING)] := rfl
      rw [hcons, List.find?_cons_of_pos]
      rw [← hcons, hmol, hM0]
      rfl
    constructor
    · rw [hdc, hloop, hspec, hhead]
      dsimp only
      rw [if_neg]
      rw [hmol]
      decide
    · intro _
      rw [hdc, hloop]

theorem detect_carrier_correct_witness :
    detect_carrier (("foo", ([] : List Value)) :: []) = none :=
  (detect_carrier_correct (("foo", ([] : List Value)) :: [])).2 (by decide)

lemma lookup_isSome_eq_contains {β : Type} (k : String)
    (df : List (String × β)) :
    (List.lookup k df).isSome = (df.map Prod.fst).contains k := by
  induction df with
  | nil => rfl
  | cons hd t ih =>
      obtain ⟨a, b⟩ := hd
      by_cases hk : k = a
      · subst hk
        simp [List.lookup]
      · have hb : (k == a) = false := beq_eq_false_iff_ne.mpr hk
        simp [List.lookup, hb, ih, hk]

lemma map_fst_map_snd (f : String → List Value → List Value) (df : DataFrame) :
    (df.map (fun p => (p.1, f p.1 p.2))).map Prod.fst = df.map Prod.fst := by
  induction df with
  | nil => rfl
  | cons hd t ih => simp [ih]

lemma convert_datatypes_names (df : DataFrame) :
    (convert_datatypes df).map Prod.fst = df.map Prod.fst :=
  map_fst_map_snd _ df

lemma clean_data_names (df : DataFrame) :
    (clean_data df).map Prod.fst = df.map Prod.fst :=
  map_fst_map_snd (fun _ col => col.map cleanCell) df

lemma selected_names (df : DataFrame) (mapping : List (String × String)) :
    (mapping.filterMap
        (fun p => (getCol df p.1).map (fun col => (p.2, col)))).map Prod.fst
      = (mapping.filter (fun p => (df.map Prod.fst).contains p.1)).map
          Prod.snd := by
  induction mapping with
  | nil => rfl
  | cons p t ih =>
      obtain ⟨o, c⟩ := p
      cases h : getCol df o with
      | none =>
          have hc : ((df.map Prod.fst).contains o) = false := by
            rw [← lookup_isSome_eq_contains]
            unfold getCol at h
            rw [h]
            rfl
          simp at hc
          simp [List.filterMap_cons, h, List.filter_cons, hc, ih]
      | some col =>
          have hc : ((df.map Prod.fst).contains o) = true := by
            rw [← lookup_isSome_eq_contains]
            unfold getCol at h
            rw [h]
            rfl
          simp at hc
          simp [List.filterMap_cons, h, List.filter_cons, hc, ih]

/-- C4: the normalized output holds exactly the canonical names of the mapping
entries whose source column is present in the input, in mapping order: unmapped
source columns are dropped, and mapped-but-absent columns are omitted. -/
theorem normalize_data_headers (df : DataFrame) (mapping : List (String × String)) :
    (normalize_data df mapping).map Prod.fst
      = (mapping.filter (fun p => (df.map Prod.fst).contains p.1)).map
          Prod.snd := by
  show (convert_datatypes (clean_data
      (mapping.filterMap
        (fun p => (getCol df p.1).map (fun col => (p.2, col)))))).map Prod.fst
    = _
  rw [convert_datatypes_names, clean_data_names]
  exact selected_names df mapping

/-- C2 counterexample: the claim maps the string "1" to true, but normalizing
a MOLINA table whose NewToMedicare cell is the string "1" yields null, not 1:
the coercion dictionary has no string keys "1"/"0". -/
theorem new_to_medicare_string_one_is_null :
    getCol (normalize_data (("NewToMedicare", [Value.vstr "1"]) :: [])
        MOLINA_MAPPING) "new_to_medicare" = some (Value.vnull :: [])
      ∧ Value.vnull ≠ Value.vnum 1 := by
  refine ⟨by decide, by decide⟩

/-- C2 amended: during normalization the new_to_medicare column is mapped
cell-wise by the coercion dictionary with its exact keys: True, "True",
"true", "Yes", "yes" and numeric 1 map to 1 (true); False, "False", "false",
"No", "no" and numeric 0 map to 0 (false); every other value — including the
strings "1"/"0" and other case variants such as "YES" — maps to null. -/
theorem new_to_medicare_coercion_exact :
    (∀ v : Value,
      convertBoolCell v =
        if v ∈ [Value.vbool true, Value.vstr "True", Value.vstr "true",
                Value.vstr "Yes", Value.vstr "yes", Value.vnum 1]
        then Value.vnum 1
        else if v ∈ [Value.vbool false, Value.vstr "False", Value.vstr "false",
                Value.vstr "No", Value.vstr "no", Value.vnum 0]
        then Value.vnum 0
        else Value.vnull)
    ∧ (∀ col : List Value,
        convertColumn "new_to_medicare" col = col.map convertBoolCell) := by
  constructor
  · intro v
    cases v with
    | vnull => decide
    | vbool b => cases b <;> decide
    | vnum q =>
        by_cases h1 : q = 1
        · subst h1
          decide
        · by_cases h0 : q = 0
          · subst h0
            decide
          · have m1 : Value.vnum q ∉
                [Value.vbool true, Value.vstr "True", Value.vstr "true",
                 Value.vstr "Yes", Value.vstr "yes", Value.vnum 1] := by
              simp [h1]
            have m0 : Value.vnum q ∉
                [Value.vbool false, Value.vstr "False", Value.vstr "false",
                 Value.vstr "No", Value.vstr "no", Value.vnum 0] := by
              simp [h0]
            rw [if_neg m1, if_neg m0]
            simp [convertBoolCell, h1, h0]
    | vstr s =>
        by_cases hα : s = "True"
        · subst hα; decide
        by_cases hβ : s = "true"
        · subst hβ; decide
        by_cases hγ : s = "Yes"
        · subst hγ; decide
        by_cases hδ : s = "yes"
        · subst hδ; decide
        by_cases hε : s = "False"
        · subst hε; decide
        by_cases hζ : s = "false"
        · subst hζ; decide
        by_cases hη : s = "No"
        · subst hη; decide
        by_cases hθ : s = "no"
        · subst hθ; decide
        have m1 : Value.vstr s ∉
            [Value.vbool true, Value.vstr "True", Value.vstr "true",
             Value.vstr "Yes", Value.vstr "yes", Value.vnum 1] := by
          simp [hα, hβ, hγ, hδ]
        have m0 : Value.vstr s ∉
            [Value.vbool false, Value.vstr "False", Value.vstr "false",
             Value.vstr "No", Value.vstr "no", Value.vnum 0] := by
          simp [hε, hζ, hη, hθ]
        rw [if_neg m1, if_neg m0]
        simp [convertBoolCell, hα, hβ, hγ, hδ, hε, hζ, hη, hθ]
  · intro col
    show (if boolean_columns.contains "new_to_medicare"
        then (if numeric_columns.contains "new_to_medicare"
            then (if date_columns.contains "new_to_medicare"
                then col.map convertDateCell else col).map convertNumericCell
            else if date_columns.contains "new_to_medicare"
                then col.map convertDateCell else col).map convertBoolCell
        else if numeric_columns.contains "new_to_medicare"
            then (if date_columns.contains "new_to_medicare"
                then col.map convertDateCell else col).map convertNumericCell
            else if date_columns.contains "new_to_medicare"
                then col.map convertDateCell else col)
      = col.map convertBoolCell
    rw [if_pos (by decide), if_neg (by decide), if_neg (by decide)]

lemma getCol_map_cols (f : String → List Value → List Value) (df : DataFrame)
    (name : String) :
    getCol (df.map (fun p => (p.1, f p.1 p.2))) name
      = (getCol df name).map (f name) := by
  induction df with
  | nil => rfl
  | cons hd t ih =>
      obtain ⟨a, b⟩ := hd
      by_cases h : name = a
      · subst h
        simp [getCol, List.lookup]
      · have hb : (name == a) = false := beq_eq_false_iff_ne.mpr h
        simp only [List.map_cons, getCol, List.lookup, hb] at ih ⊢
        exact ih

lemma convertColumn_numeric (name : String) (col : List Value)
    (hd : date_columns.contains name = false)
    (hn : numeric_columns.contains name = true)
    (hb : boolean_columns.contains name = false) :
    convertColumn name col = col.map convertNumericCell := by
  show (if boolean_columns.contains name
      then (if numeric_columns.contains name
          then (if date_columns.contains name
              then col.map convertDateCell else col).map convertNumericCell
          else if date_columns.contains name
              then col.map convertDateCell else col).map convertBoolCell
      else if numeric_columns.contains name
          then (if date_columns.contains name
              then col.map convertDateCell else col).map convertNumericCell
          else if date_columns.contains name
              then col.map convertDateCell else col)
    = col.map convertNumericCell
  rw [if_neg (by rw [hb]; decide), if_pos hn, if_neg (by rw [hd]; decide)]

lemma convertColumn_date (name : String) (col : List Value)
    (hd : date_columns.contains name = true)
    (hn : numeric_columns.contains name = false)
    (hb : boolean_columns.contains name = false) :
    convertColumn name col = col.map convertDateCell := by
  show (if boolean_columns.contains name
      then (if numeric_columns.contains name
          then (if date_columns.contains name
              then col.map convertDateCell else col).map convertNumericCell
          else if date_columns.contains name
              then col.map convertDateCell else col).map convertBoolCell
      else if numeric_columns.contains name
          then (if date_columns.contains name
              then col.map convertDateCell else col).map convertNumericCell
          else if date_columns.contains name
              then col.map convertDateCell else col)
    = col.map convertDateCell
  rw [if_neg (by rw [hb]; decide), if_neg (by rw [hn]; decide), if_pos hd]

lemma convertNumericCell_shape (v : Value) :
    (∃ q, convertNumericCell v = Value.vnum q)
      ∨ convertNumericCell v = Value.vnull := by
  cases v with
  | vnull => right; rfl
  | vbool b => left; exact ⟨if b then 1 else 0, rfl⟩
  | vnum q => left; exact ⟨q, rfl⟩
  | vstr s =>
      cases h : parseDecimal s with
      | none => right; simp [convertNumericCell, h]
      | some q => left; exact ⟨q, by simp [convertNumericCell, h]⟩

lemma parseISODate_bounds (s : String) (dt : PyDate)
    (h : parseISODate s = some dt) :
    1 ≤ dt.m ∧ dt.m ≤ 12 ∧ 1 ≤ dt.d ∧ dt.d ≤ 31 := by
  unfold parseISODate at h
  split at h
  · dsimp only at h
    split_ifs at h with h1 h2
    · injection h with hdt
      subst hdt
      exact ⟨h2.1, h2.2.1, h2.2.2.1, h2.2.2.2⟩
  · exact absurd h (by simp)

lemma convertDateCell_shape (v : Value) :
    (∃ dt, 1 ≤ dt.m ∧ dt.m ≤ 12 ∧ 1 ≤ dt.d ∧ dt.d ≤ 31
        ∧ convertDateCell v = Value.vstr (formatISO dt))
      ∨ convertDateCell v = Value.vnull := by
  cases hp : parseDateValue v with
  | none => right; simp [convertDateCell, hp]
  | some dt =>
      left
      refine ⟨dt, ?_, ?_, ?_, ?_, by simp [convertDateCell, hp]⟩ <;>
      · cases v with
        | vstr s =>
            have hb := parseISODate_bounds s dt (by simpa [parseDateValue] using hp)
            omega
        | vnull => simp [parseDateValue] at hp
        | vbool b => simp [parseDateValue] at hp
        | vnum q => simp [parseDateValue] at hp

/-- C3: after normalization, each value of the numeric columns amount,
member_count, lives is a number or null, and each value of the date columns
payment_date, statement_date, effective_date is a YYYY-MM-DD rendering of an
in-range date or null; unparseable inputs become null. -/
theorem normalized_value_types (df : DataFrame) (mapping : List (String × String)) :
    (∀ name ∈ ["amount", "member_count", "lives"], ∀ col,
        getCol (normalize_data df mapping) name = some col →
        ∀ v ∈ col, (∃ q, v = Value.vnum q) ∨ v = Value.vnull)
    ∧ (∀ name ∈ date_columns, ∀ col,
        getCol (normalize_data df mapping) name = some col →
        ∀ v ∈ col,
          (∃ dt, 1 ≤ dt.m ∧ dt.m ≤ 12 ∧ 1 ≤ dt.d ∧ dt.d ≤ 31
              ∧ v = Value.vstr (formatISO dt)) ∨ v = Value.vnull) := by
  have h2 : ∀ name, getCol (normalize_data df mapping) name
      = (getCol (clean_data (mapping.filterMap
          (fun p => (getCol df p.1).map (fun c => (p.2, c))))) name).map
        (convertColumn name) :=
    fun name => getCol_map_cols convertColumn _ name
  constructor
  · intro name hname col hcol v hv
    rw [h2 name] at hcol
    cases h3 : getCol (clean_data (mapping.filterMap
        (fun p => (getCol df p.1).map (fun c => (p.2, c))))) name with
    | none => rw [h3] at hcol; exact absurd hcol (by simp)
    | some col0 =>
        rw [h3] at hcol
        injection hcol with hcol
        have hnum : convertColumn name col0 = col0.map convertNumericCell := by
          simp only [List.mem_cons, List.not_mem_nil, or_false] at hname
          rcases hname with rfl | rfl | rfl
          · exact convertColumn_numeric _ _ (by decide) (by decide) (by decide)
          · exact convertColumn_numeric _ _ (by decide) (by decide) (by decide)
          · exact convertColumn_numeric _ _ (by decide) (by decide) (by decide)
        rw [← hcol, hnum] at hv
        obtain ⟨u, _, hu⟩ := List.mem_map.mp hv
        rw [← hu]
        exact convertNumericCell_shape u
  · intro name hname col hcol v hv
    rw [h2 name] at hcol
    cases h3 : getCol (clean_data (mapping.filterMap
        (fun p => (getCol df p.1).map (fun c => (p.2, c))))) name with
    | none => rw [h3] at hcol; exact absurd hcol (by simp)
    | some col0 =>
        rw [h3] at hcol
        injection hcol with hcol
        have hdt : convertColumn name col0 = col0.map convertDateCell := by
          simp only [date_columns, List.mem_cons, List.not_mem_nil, or_false]
            at hname
          rcases hname with rfl | rfl | rfl
          · exact convertColumn_date _ _ (by decide) (by decide) (by decide)
          · exact convertColumn_date _ _ (by decide) (by decide) (by decide)
          · exact convertColumn_date _ _ (by decide) (by decide) (by decide)
        rw [← hcol, hdt] at hv
        obtain ⟨u, _, hu⟩ := List.mem_map.mp hv
        rw [← hu]
        exact convertDateCell_shape u

theorem normalized_value_types_witness :
    (∃ q, Value.vnum 7 = Value.vnum q) ∨ Value.vnum 7 = Value.vnull :=
  (normalized_value_types (("Amount", [Value.vstr "7"]) :: []) MOLINA_MAPPING).1
    "amount" (by decide) (Value.vnum 7 :: []) (by decide) (Value.vnum 7)
    (by decide)

lemma lookup_mem (k : String) (df : DataFrame) (v : List Value)
    (h : List.lookup k df = some v) : (k, v) ∈ df := by
  induction df with
  | nil => simp [List.lookup] at h
  | cons hd t ih =>
      obtain ⟨a, b⟩ := hd
      by_cases hk : k = a
      · subst hk
        simp only [List.lookup, beq_self_eq_true, Option.some.injEq] at h
        subst h
        exact List.mem_cons_self _ _
      · have hb : (k == a) = false := beq_eq_false_iff_ne.mpr hk
        simp only [List.lookup, hb] at h
        exact List.mem_cons_of_mem _ (ih h)

lemma length_convertColumn (name : String) (col : List Value) :
    (convertColumn name col).length = col.length := by
  show (if boolean_columns.contains name
      then (if numeric_columns.contains name
          then (if date_columns.contains name
              then col.map convertDateCell else col).map convertNumericCell
          else if date_columns.contains name
              then col.map convertDateCell else col).map convertBoolCell
      else if numeric_columns.contains name
          then (if date_columns.contains name
              then col.map convertDateCell else col).map convertNumericCell
          else if date_columns.contains name
              then col.map convertDateCell else col).length
    = col.length
  split_ifs <;> simp

lemma normalize_cons_of_some (df : DataFrame) (o c : String)
    (rest : List (String × String)) (col : List Value)
    (h : getCol df o = some col) :
    normalize_data df ((o, c) :: rest)
      = (c, convertColumn c (col.map cleanCell)) :: normalize_data df rest := by
  simp [normalize_data, List.filterMap_cons, h, clean_data, convert_datatypes]

lemma rowCount_normalize_first (df : DataFrame) (mapping : List (String × String))
    (o c : String) (rest : List (String × String))
    (hm : mapping = (o, c) :: rest)
    (hhdr : df.map Prod.fst = mapping.map Prod.fst)
    (huni : ∀ p ∈ df, p.2.length = rowCount df) :
    rowCount (normalize_data df mapping) = rowCount df := by
  subst hm
  have hcont : ((df.map Prod.fst).contains o) = true := by
    rw [hhdr]
    simp
  have hsome : (List.lookup o df).isSome = true := by
    rw [lookup_isSome_eq_contains]
    exact hcont
  obtain ⟨col, hcol⟩ := Option.isSome_iff_exists.mp hsome
  have hmem : (o, col) ∈ df := lookup_mem o df col hcol
  rw [normalize_cons_of_some df o c rest col hcol]
  show (convertColumn c (col.map cleanCell)).length = rowCount df
  rw [length_convertColumn, List.length_map]
  exact huni (o, col) hmem

/-- C5: for every supported carrier, normalizing a table whose headers are
exactly that carrier's mapping keys (with columns of uniform length) yields a
table with the same number of rows. -/
theorem normalize_preserves_rowcount (carrier : String)
    (mapping : List (String × String)) (df : DataFrame)
    (hcm : (carrier, mapping) ∈ CARRIER_MAPPINGS)
    (hhdr : df.map Prod.fst = mapping.map Prod.fst)
    (huni : ∀ p ∈ df, p.2.length = rowCount df) :
    rowCount (normalize_data df mapping) = rowCount df := by
  simp only [CARRIER_MAPPINGS, List.mem_cons, List.not_mem_nil, or_false,
    Prod.mk.injEq] at hcm
  rcases hcm with ⟨h1, h2⟩ | ⟨h1, h2⟩ | ⟨h1, h2⟩ | ⟨h1, h2⟩ <;> subst h2
  · exact rowCount_normalize_first df _ "Generated From" "generated_from" _
      rfl hhdr huni
  · exact rowCount_normalize_first df _ "Generated From" "generated_from" _
      rfl hhdr huni
  · exact rowCount_normalize_first df _ "Generated From" "generated_from" _
      rfl hhdr huni
  · exact rowCount_normalize_first df _ "Commission type" "commission_type" _
      rfl hhdr huni

theorem normalize_preserves_rowcount_witness :
    rowCount (normalize_data
        (MOLINA_MAPPING.map (fun p => (p.1, Value.vnull :: [])))
        MOLINA_MAPPING)
      = rowCount (MOLINA_MAPPING.map (fun p => (p.1, Value.vnull :: []))) :=
  normalize_preserves_rowcount "MOLINA" MOLINA_MAPPING _ (by decide) (by decide)
    (by decide)

/-- C6: an unsupported carrier name is rejected by process_file with the error
naming the available carriers, identically for every file (so before the file
is read); a valid-suffix empty table and a valid-suffix unreadable file are
rejected by validate_file with their messages; and process_and_save returns a
failure and leaves the store untouched whenever validation fails. -/
theorem rejects_before_processing :
    (∀ carrier_name : String, carrier_name ∉ AVAILABLE_CARRIERS →
      ∀ f g : ExcelFile,
        process_file f carrier_name
            = Except.error (unsupportedCarrierMsg carrier_name)
          ∧ process_file f carrier_name = process_file g carrier_name)
    ∧ (∀ f : ExcelFile, ∀ df,
        (f.suffix = ".xlsx" ∨ f.suffix = ".xls") → read_excel f = some df →
        rowCount df = 0 →
        validate_file f = (false, "El archivo está vacío"))
    ∧ (∀ f : ExcelFile,
        (f.suffix = ".xlsx" ∨ f.suffix = ".xls") → f.present = true →
        read_excel f = none →
        validate_file f = (false, "Error al leer el archivo: <exception>"))
    ∧ (∀ (db : List Record) (f : ExcelFile) (c d : String) (ok : Bool),
        (validate_file f).1 = false →
        (process_and_save db f c d ok).1.success = false
          ∧ (process_and_save db f c d ok).2 = db) := by
  refine ⟨?_, ?_, ?_, ?_⟩
  · intro c hc f g
    have hnone : List.lookup c CARRIER_MAPPINGS = none := by
      cases hl : List.lookup c CARRIER_MAPPINGS with
      | none => rfl
      | some m =>
          exfalso
          have hcont : ((CARRIER_MAPPINGS.map Prod.fst).contains c) = true := by
            rw [← lookup_isSome_eq_contains, hl]
            rfl
          simp only [List.contains_iff_exists_mem_beq] at hcont
          obtain ⟨a, ha, hab⟩ := hcont
          rw [show c = a from beq_iff_eq.mp hab] at hc
          exact hc ha
    constructor
    · simp [process_file, hnone]
    · simp [process_file, hnone]
  · intro f df hsuf hr h0
    have hpres : ¬ f.present = false := by
      unfold read_excel at hr
      by_cases hp : f.present
      · simp [hp]
      · rw [if_neg hp] at hr
        exact absurd hr (by simp)
    unfold validate_file
    rw [if_neg (not_not_intro hsuf), if_neg hpres, hr]
    dsimp only
    rw [if_pos h0]
  · intro f hsuf hpres hr
    unfold validate_file
    rw [if_neg (not_not_intro hsuf), if_neg (by simp [hpres]), hr]
  · intro db f c d ok hval
    have hps : process_and_save db f c d ok =
        ({ success := false, error := some (validate_file f).2,
           records_inserted := none, stats := none, message := none }, db) := by
      unfold process_and_save
      rw [if_pos hval]
    rw [hps]
    exact ⟨rfl, rfl⟩

theorem rejects_before_processing_witness :
    process_file (ExcelFile.mk "x.xlsx" ".xlsx" true none) "BOGUS"
      = Except.error (unsupportedCarrierMsg "BOGUS") :=
  ((rejects_before_processing).1 "BOGUS" (by decide)
    (ExcelFile.mk "x.xlsx" ".xlsx" true none)
    (ExcelFile.mk "x.xlsx" ".xlsx" true none)).1

/-- C7: process_and_save is all-or-nothing per file: on any failure the result
reports success = false and the persisted records are exactly the ones from
before the call; on success the new store is the old one plus the file's rows
(never a partial subset interleaved with a failure report). -/
theorem ingestion_all_or_nothing (db : List Record) (f : ExcelFile)
    (carrier_name upload_date : String) (write_ok : Bool) :
    ((process_and_save db f carrier_name upload_date write_ok).1.success = false →
      (process_and_save db f carrier_name upload_date write_ok).2 = db)
    ∧ ((process_and_save db f carrier_name upload_date write_ok).1.success = true →
      ∃ written, (process_and_save db f carrier_name upload_date write_ok).2
          = db ++ written) := by
  unfold process_and_save
  by_cases hval : (validate_file f).1 = false
  · rw [if_pos hval]
    exact ⟨fun _ => rfl, fun h => by simp at h⟩
  · rw [if_neg hval]
    cases hpf : process_file f carrier_name with
    | error e =>
        exact ⟨fun _ => rfl, fun h => by simp at h⟩
    | ok pr =>
        obtain ⟨dfn, st⟩ := pr
        unfold insert_bulk_commission_reports
        cases write_ok with
        | true =>
            dsimp only [if_pos]
            exact ⟨fun h => by simp at h, fun _ => ⟨_, rfl⟩⟩
        | false =>
            dsimp only [if_neg]
            exact ⟨fun _ => rfl, fun h => by simp at h⟩

theorem ingestion_all_or_nothing_witness :
    (process_and_save ([] : List Record)
        (ExcelFile.mk "x.xlsx" ".xlsx" false none) "MOLINA" "2025-01-01"
        true).2 = ([] : List Record) :=
  (ingestion_all_or_nothing ([] : List Record)
      (ExcelFile.mk "x.xlsx" ".xlsx" false none) "MOLINA" "2025-01-01"
      true).1 (by decide)

/-- C8: the total_amount statistic of a table with no rows is 0, whether the
amount column is present (as an empty column) or absent. -/
theorem stats_empty_table_total (carrier_name : String) (df : DataFrame)
    (h : ∀ p ∈ df, p.2 = ([] : List Value)) :
    (calculate_stats df carrier_name).total_amount = 0 := by
  cases hg : getCol df "amount" with
  | none => simp [calculate_stats, hg]
  | some col =>
      have hmem := lookup_mem "amount" df col hg
      have hcol : col = [] := h _ hmem
      subst hcol
      simp [calculate_stats, hg]
      rfl

theorem stats_empty_table_total_witness :
    (calculate_stats (("amount", ([] : List Value)) :: []) "MOLINA").total_amount
      = 0 :=
  stats_empty_table_total "MOLINA" (("amount", ([] : List Value)) :: [])
    (by decide)

lemma colAssign_not_present (df : DataFrame) (name : String) (v : Value)
    (h : name ∉ df.map Prod.fst) :
    colAssign df name v = df ++ [(name, List.replicate (rowCount df) v)] := by
  unfold colAssign
  rw [if_neg (by simp [h])]

lemma rowCount_append_single (df : DataFrame) (name : String) (col : List Value)
    (h : col.length = rowCount df) :
    rowCount (df ++ [(name, col)]) = rowCount df := by
  cases df with
  | nil => simpa [rowCount] using h
  | cons hd t => rfl

/-- C10: insert_bulk_commission_reports mutates the caller's DataFrame: the
frame comes back as the original columns followed by the three metadata
columns carrier_name, report_file_name, upload_date (broadcast to the row
count), whether or not the write succeeds; and the statistics produced by
process_file — the ones process_and_save reports — are computed on the
normalized table before this mutation. -/
theorem insert_bulk_mutates_caller (db : List Record) (df : DataFrame)
    (carrier_name file_name upload_date : String) (write_ok : Bool)
    (h1 : "carrier_name" ∉ df.map Prod.fst)
    (h2 : "report_file_name" ∉ df.map Prod.fst)
    (h3 : "upload_date" ∉ df.map Prod.fst) :
    ((insert_bulk_commission_reports db df carrier_name file_name upload_date
        write_ok).2
      = df ++ [("carrier_name",
                  List.replicate (rowCount df) (Value.vstr carrier_name)),
               ("report_file_name",
                  List.replicate (rowCount df) (Value.vstr file_name)),
               ("upload_date",
                  List.replicate (rowCount df) (Value.vstr upload_date))])
    ∧ (∀ (f : ExcelFile) (ndf : DataFrame) (st : Stats),
        process_file f carrier_name = Except.ok (ndf, st) →
        st = calculate_stats ndf carrier_name) := by
  constructor
  · have e1 : colAssign df "carrier_name" (Value.vstr carrier_name)
        = df ++ [("carrier_name",
            List.replicate (rowCount df) (Value.vstr carrier_name))] :=
      colAssign_not_present df _ _ h1
    have hr1 : rowCount (df ++ [("carrier_name",
        List.replicate (rowCount df) (Value.vstr carrier_name))])
        = rowCount df :=
      rowCount_append_single df _ _ (List.length_replicate _ _)
    have hn2 : "report_file_name" ∉ (df ++ [("carrier_name",
        List.replicate (rowCount df) (Value.vstr carrier_name))]).map
          Prod.fst := by
      simp [List.map_append, h2]
    have e2 : colAssign (df ++ [("carrier_name",
        List.replicate (rowCount df) (Value.vstr carrier_name))])
          "report_file_name" (Value.vstr file_name)
        = df ++ [("carrier_name",
            List.replicate (rowCount df) (Value.vstr carrier_name)),
          ("report_file_name",
            List.replicate (rowCount df) (Value.vstr file_name))] := by
      rw [colAssign_not_present _ _ _ hn2, hr1, List.append_assoc]
      rfl
    have hr2 : rowCount (df ++ [("carrier_name",
          List.replicate (rowCount df) (Value.vstr carrier_name)),
        ("report_file_name",
          List.replicate (rowCount df) (Value.vstr file_name))])
        = rowCount df := by
      cases df with
      | nil => simp [rowCount]
      | cons hd t => rfl
    have hn3 : "upload_date" ∉ (df ++ [("carrier_name",
        List.replicate (rowCount df) (Value.vstr carrier_name)),
        ("report_file_name",
          List.replicate (rowCount df) (Value.vstr file_name))]).map
          Prod.fst := by
      simp [List.map_append, h3]
    have e3 : colAssign (df ++ [("carrier_name",
          List.replicate (rowCount df) (Value.vstr carrier_name)),
        ("report_file_name",
          List.replicate (rowCount df) (Value.vstr file_name))])
          "upload_date" (Value.vstr upload_date)
        = df ++ [("carrier_name",
            List.replicate (rowCount df) (Value.vstr carrier_name)),
          ("report_file_name",
            List.replicate (rowCount df) (Value.vstr file_name)),
          ("upload_date",
            List.replicate (rowCount df) (Value.vstr upload_date))] := by
      rw [colAssign_not_present _ _ _ hn3, hr2, List.append_assoc]
      rfl
    show (insert_bulk_commission_reports db df carrier_name file_name
        upload_date write_ok).2 = _
    unfold insert_bulk_commission_reports
    rw [e1, e2, e3]
    cases write_ok <;> rfl
  · intro f ndf st hpf
    unfold process_file at hpf
    split at hpf
    · exact absurd hpf (by simp)
    · split at hpf
      · exact absurd hpf (by simp)
      · dsimp only at hpf
        injection hpf with h
        rw [Prod.mk.injEq] at h
        obtain ⟨ha, hb⟩ := h
        subst ha
        subst hb
        rfl

theorem insert_bulk_mutates_caller_witness :
    (insert_bulk_commission_reports ([] : List Record)
        (("amount", Value.vnum 3 :: []) :: []) "MOLINA" "f.xlsx" "2025-01-01"
        true).2
      = (("amount", Value.vnum 3 :: []) ::
          [("carrier_name", List.replicate 1 (Value.vstr "MOLINA")),
           ("report_file_name", List.replicate 1 (Value.vstr "f.xlsx")),
           ("upload_date", List.replicate 1 (Value.vstr "2025-01-01"))]) :=
  (insert_bulk_mutates_caller ([] : List Record)
      (("amount", Value.vnum 3 :: []) :: []) "MOLINA" "f.xlsx" "2025-01-01"
      true (by decide) (by decide) (by decide)).1

lemma getCol_none_of_not_mem (df : DataFrame) (k : String)
    (h : k ∉ df.map Prod.fst) : getCol df k = none := by
  cases hg : getCol df k with
  | none => rfl
  | some v =>
      exfalso
      have hiso := lookup_isSome_eq_contains k df
      rw [show getCol df k = List.lookup k df from rfl] at hg
      rw [hg] at hiso
      simp at hiso
      obtain ⟨x, hx⟩ := hiso
      exact h (List.mem_map_of_mem Prod.fst hx)

/-- C9 counterexample: a persisted row with canonical amount 100 is exported;
re-importing the exported spreadsheet through normalization (here with the
MOLINA mapping) loses the amount field entirely — the exported headers are
canonical names, which no carrier mapping recognizes — so the round trip is
not the identity on canonical fields. -/
theorem reexport_reimport_not_identity :
    getCol (normalize_data
        (export_to_excel
          (((("amount", Value.vnum 100) ::
             ("carrier_name", Value.vstr "MOLINA") ::
             ("report_file_name", Value.vstr "f.xlsx") ::
             ("upload_date", Value.vstr "2025-01-01") :: []) : Record) :: []))
        MOLINA_MAPPING) "amount" = none
      ∧ List.lookup "amount"
          ((("amount", Value.vnum 100) ::
            ("carrier_name", Value.vstr "MOLINA") ::
            ("report_file_name", Value.vstr "f.xlsx") ::
            ("upload_date", Value.vstr "2025-01-01") :: []) : Record)
          = some (Value.vnum 100) :=
  ⟨by decide, by decide⟩

/-- C9 amended: re-importing an exported spreadsheet yields an EMPTY
normalized table for every carrier: the export carries the schema's canonical
headers, none of which is a raw header of any carrier mapping, so every column
is dropped and no canonical field of any row survives the round trip. -/
theorem reimport_of_export_drops_all (records : List Record) (carrier : String)
    (mapping : List (String × String))
    (hcm : (carrier, mapping) ∈ CARRIER_MAPPINGS) :
    normalize_data (export_to_excel records) mapping = ([] : DataFrame) := by
  have hnames : (export_to_excel records).map Prod.fst = SCHEMA_COLUMNS := by
    unfold export_to_excel
    rw [List.map_map]
    exact List.map_id SCHEMA_COLUMNS
  have hkeys : ∀ p ∈ mapping, p.1 ∉ SCHEMA_COLUMNS := by
    simp only [CARRIER_MAPPINGS, List.mem_cons, List.not_mem_nil, or_false,
      Prod.mk.injEq] at hcm
    rcases hcm with ⟨h1, h2⟩ | ⟨h1, h2⟩ | ⟨h1, h2⟩ | ⟨h1, h2⟩ <;> subst h2 <;>
      decide
  have hsel : mapping.filterMap
      (fun p => (getCol (export_to_excel records) p.1).map
        (fun col => (p.2, col))) = [] := by
    rw [List.filterMap_eq_nil_iff]
    intro p hp
    rw [getCol_none_of_not_mem]
    · rfl
    · rw [hnames]
      exact hkeys p hp
  show convert_datatypes (clean_data (mapping.filterMap
    (fun p => (getCol (export_to_excel records) p.1).map
      (fun col => (p.2, col))))) = []
  rw [hsel]
  rfl

theorem reimport_of_export_drops_all_witness :
    normalize_data (export_to_excel ([] : List Record)) MOLINA_MAPPING
      = ([] : DataFrame) :=
  reimport_of_export_drops_all ([] : List Record) "MOLINA" MOLINA_MAPPING
    (by decide)
